import Mathlib

/-!
Verification of the ScrapCo backend's vendor-dispatch routes against its
natural-language specification.

The routes under `src/routes` and `src/unnamed/part_002` (backend/routes/pickups.js)
are embedded shallowly: Supabase tables become association lists, request
bodies become structures of optional JavaScript values, and each Express
handler becomes a pure function from its inputs and the persisted state to a
response and the new state.  The dispatcher (`services/dispatcher.js`) is not
among the repository files provided, so its two operations that the routes
call — `confirmVendorAcceptance` and `handleVendorRejection` — are modelled
from the spec's §4.2 wording, as marked on their doc comments.
-/

namespace ScrapCo

/-! ## Persisted data model (db/client.js: table `pickups`) -/

/-- A row of the `pickups` table.  `status` holds one of the `pickup_status`
enum literals (`REQUESTED`, `FINDING_VENDOR`, `ASSIGNED`, `COMPLETED`,
`NO_VENDOR_AVAILABLE`, `CANCELLED`); timestamps are modelled as `Nat`. -/
structure Pickup where
  status : String
  assignedVendorRef : Option String
  assignmentExpiresAt : Option Nat
  cancelledAt : Option Nat
  completedAt : Option Nat
deriving DecidableEq, Repr

/-- The `pickups` table: rows keyed by their uuid. -/
abbrev PickupStore := List (String × Pickup)

def lookupPickup (store : PickupStore) (pid : String) : Option Pickup :=
  (store.find? (fun e => e.1 = pid)).map Prod.snd

/-- Conditional write-back of one row (`.update(...).eq('id', pid)`). -/
def updatePickup (store : PickupStore) (pid : String) (p : Pickup) : PickupStore :=
  store.map (fun e => if e.1 = pid then (pid, p) else e)

/-! ## JavaScript value helpers -/

/-- Truthiness of an optional string field of a JSON body: `undefined`/absent
and the empty string are falsy, any other string truthy. -/
def strTruthy : Option String → Bool
  | some s => !s.isEmpty
  | none => false

/-- JavaScript `a || b` on optional string fields. -/
def jsOr (a b : Option String) : Option String :=
  if strTruthy a then a else b

/-- `String.prototype.trim()`: strips whitespace from both ends.  Defined
over the character list so that it evaluates inside the kernel. -/
def jsTrim (s : String) : String :=
  ⟨((s.data.dropWhile Char.isWhitespace).reverse.dropWhile Char.isWhitespace).reverse⟩

/-- `String.prototype.toUpperCase()` on the ASCII identifiers this backend
stores.  Defined over the character list so that it evaluates inside the
kernel. -/
def jsToUpper (s : String) : String :=
  ⟨s.data.map Char.toUpper⟩

/-! ## Vendor callback bodies (src/routes/vendor.js) -/

/-- The JSON body of a vendor callback, with every accepted alias spelled out
as its own optional field. -/
structure CallbackBody where
  pickupId : Option String := none
  pickup_id : Option String := none
  request_id : Option String := none
  requestId : Option String := none
  assignedVendorRef : Option String := none
  vendor_id : Option String := none
  vendorId : Option String := none
deriving DecidableEq, Repr

/-- `body.pickupId || body.pickup_id || body.request_id || body.requestId`
(src/routes/vendor.js line 17). -/
def extractPickupId (b : CallbackBody) : Option String :=
  jsOr b.pickupId (jsOr b.pickup_id (jsOr b.request_id b.requestId))

/-- `assignedVendorRef || vendor_id || vendorId` (src/routes/vendor.js line 26). -/
def extractVendorRef (b : CallbackBody) : Option String :=
  jsOr b.assignedVendorRef (jsOr b.vendor_id b.vendorId)

/-- A body that supplies the two identifiers under their canonical keys. -/
def mkCallbackBody (pid v : String) : CallbackBody :=
  { pickupId := some pid, vendor_id := some v }

/-! ## Acceptance Arbiter (modelled from the spec) -/

/-- The §4.2 acceptance condition: `status == FINDING_VENDOR AND
assignedVendorRef == vendorRef AND now < assignmentExpiresAt`.  The vendor
reference arrives as an optional value since the `/api/pickups/accepted`
route forwards a possibly-absent field. -/
def acceptCond (p : Pickup) (vref : Option String) (now : Nat) : Bool :=
  decide (p.status = "FINDING_VENDOR") && decide (p.assignedVendorRef = vref) &&
    (match p.assignmentExpiresAt with
     | some t => decide (now < t)
     | none => false)

/-- Modelled from the spec: `confirmVendorAcceptance(pickupId, vendorRef)` of
`services/dispatcher.js`, which is not under src/ (only its route callers
are).  Spec §4.2: a single conditional transition that succeeds only if
status is FINDING_VENDOR, the assigned vendor matches and now is strictly
before `assignmentExpiresAt`; on success status becomes ASSIGNED and
`assignmentExpiresAt` is cleared and the updated projection is returned; on
failure nothing is mutated and the caller gets a falsy conflict signal.  The
condition check and the write are one atomic step against the store. -/
def confirmVendorAcceptance (store : PickupStore) (pid : String)
    (vref : Option String) (now : Nat) : Option (Pickup × PickupStore) :=
  match lookupPickup store pid with
  | none => none
  | some p =>
    if acceptCond p vref now then
      let p2 := { p with status := "ASSIGNED", assignmentExpiresAt := none }
      some (p2, updatePickup store pid p2)
    else none

/-! ## POST /api/vendor/accept (src/routes/vendor.js lines 12-41) -/

inductive VendorResp where
  | unauthorized
  | badRequest (msg : String)
  | conflict
  | okPickup (p : Pickup)
deriving DecidableEq, Repr

structure AcceptOutcome where
  resp : VendorResp
  store : PickupStore
  dispatcherInvoked : Bool
deriving DecidableEq, Repr

def acceptRoute (sigOk : Bool) (b : CallbackBody) (store : PickupStore)
    (now : Nat) : AcceptOutcome :=
  if !sigOk then ⟨.unauthorized, store, false⟩
  else
    let pickupId := extractPickupId b
    if !strTruthy pickupId then
      ⟨.badRequest "pickupId is required (accepted keys: pickupId, pickup_id, request_id, requestId)",
        store, false⟩
    else
      let vendorRef := extractVendorRef b
      if !strTruthy vendorRef then
        ⟨.badRequest "vendor_id (or assignedVendorRef) is required", store, false⟩
      else
        match confirmVendorAcceptance store (pickupId.getD "") vendorRef now with
        | none => ⟨.conflict, store, true⟩
        | some (p2, store2) => ⟨.okPickup p2, store2, true⟩

/-! ## POST /api/vendor/reject (src/routes/vendor.js lines 115-139) -/

/-- What the dispatcher's rejection handler reports back. -/
inductive RejResult where
  | ignored
  | redispatched
deriving DecidableEq, Repr

/-- Modelled from the spec: `handleVendorRejection(pickupId, vendorRef)` of
`services/dispatcher.js`, which is not under src/.  Spec §4.2: validates that
vendorRef matches the pickup's current `assignedVendorRef`; a rejection from
a non-current vendor is ignored (an "ignored" marker, not an error) with no
mutation; on match it records a RejectionRecord(reason=explicit-reject) and
redispatches.  The Offer Coordinator's `dispatch` (§4.1, also not under src/)
is abstracted as the function argument `dispatchFn`. -/
def handleVendorRejection (dispatchFn : PickupStore → String → PickupStore)
    (store : PickupStore) (rejections : List (String × String))
    (pid : String) (vref : Option String) :
    RejResult × PickupStore × List (String × String) :=
  match lookupPickup store pid with
  | none => (.ignored, store, rejections)
  | some p =>
    if p.assignedVendorRef = vref then
      ((.redispatched : RejResult), dispatchFn store pid, (pid, vref.getD "") :: rejections)
    else (.ignored, store, rejections)

inductive RejectResp where
  | unauthorized
  | badRequest (msg : String)
  | okResult (r : RejResult)
deriving DecidableEq, Repr

structure RejectOutcome where
  resp : RejectResp
  store : PickupStore
  rejections : List (String × String)
deriving DecidableEq, Repr

def rejectRoute (dispatchFn : PickupStore → String → PickupStore) (sigOk : Bool)
    (b : CallbackBody) (store : PickupStore)
    (rejections : List (String × String)) : RejectOutcome :=
  if !sigOk then ⟨.unauthorized, store, rejections⟩
  else
    let pickupId := extractPickupId b
    if !strTruthy pickupId then
      ⟨.badRequest "pickupId is required (accepted keys: pickupId, pickup_id, request_id, requestId)",
        store, rejections⟩
    else
      let vendorRef := extractVendorRef b
      if !strTruthy vendorRef then
        ⟨.badRequest "vendor_id (or assignedVendorRef) is required", store, rejections⟩
      else
        match handleVendorRejection dispatchFn store rejections (pickupId.getD "") vendorRef with
        | (r, store2, rej2) => ⟨.okResult r, store2, rej2⟩

/-! ## POST /api/pickups/accepted (src/unnamed/part_002 lines 288-313)

This route extracts the pickup id through the same aliases but reads only the
literal `assignedVendorRef` field and performs no vendor-identifier check
before calling the dispatcher. -/

def acceptedRoute (sigOk : Bool) (b : CallbackBody) (store : PickupStore)
    (now : Nat) : AcceptOutcome :=
  if !sigOk then ⟨.unauthorized, store, false⟩
  else
    let pickupId := extractPickupId b
    if !strTruthy pickupId then
      ⟨.badRequest "pickupId is required (accepted keys: pickupId, pickup_id, request_id, requestId)",
        store, false⟩
    else
      match confirmVendorAcceptance store (pickupId.getD "") b.assignedVendorRef now with
      | none => ⟨.conflict, store, true⟩
      | some (p2, store2) => ⟨.okPickup p2, store2, true⟩

/-! ## Customer routes (src/unnamed/part_002 = backend/routes/pickups.js) -/

inductive CustomerResp where
  | unauthorized
  | badRequest (msg : String)
  | notFound
  | conflict (msg : String)
  | ok
deriving DecidableEq, Repr

structure CustomerOutcome where
  resp : CustomerResp
  store : PickupStore
  /-- Pickup ids with live in-memory dispatch state (`dispatcher._internal.dispatchState`). -/
  timers : List String
  /-- Whether `dispatcher.dispatchPickup` was kicked off. -/
  dispatched : Bool
deriving DecidableEq, Repr

/-- POST /api/pickups/:id/find-vendor (lines 185-231): customer-initiated
retry.  Refuses with 409 exactly when the (uppercased) status is ASSIGNED,
CANCELLED or COMPLETED; otherwise forces the row back to FINDING_VENDOR with
cleared offer fields, drops any in-memory timer state and restarts dispatch. -/
def findVendorRoute (auth : Bool) (idRaw : String) (store : PickupStore)
    (timers : List String) : CustomerOutcome :=
  if !auth then ⟨.unauthorized, store, timers, false⟩
  else
    let id := jsTrim idRaw
    if id.isEmpty then ⟨.badRequest "id is required", store, timers, false⟩
    else
      match lookupPickup store id with
      | none => ⟨.notFound, store, timers, false⟩
      | some p =>
        let s := jsToUpper p.status
        if s = "ASSIGNED" || s = "CANCELLED" || s = "COMPLETED" then
          ⟨.conflict "Cannot retry vendor assignment", store, timers, false⟩
        else
          let p2 := { p with
            status := "FINDING_VENDOR"
            assignedVendorRef := none
            assignmentExpiresAt := none
            cancelledAt := none }
          ⟨.ok, updatePickup store id p2, timers.filter (fun t => t ≠ id), true⟩

/-- POST /api/pickups/:id/cancel (lines 237-281): soft cancel.  Refuses with
409 exactly when the (uppercased) status is COMPLETED; otherwise marks the
row CANCELLED with `cancelled_at = now`, clears the offer fields and drops
any in-memory timer state. -/
def cancelRoute (auth : Bool) (idRaw : String) (now : Nat) (store : PickupStore)
    (timers : List String) : CustomerOutcome :=
  if !auth then ⟨.unauthorized, store, timers, false⟩
  else
    let id := jsTrim idRaw
    if id.isEmpty then ⟨.badRequest "id is required", store, timers, false⟩
    else
      match lookupPickup store id with
      | none => ⟨.notFound, store, timers, false⟩
      | some p =>
        if jsToUpper p.status = "COMPLETED" then
          ⟨.conflict "Completed pickups cannot be cancelled", store, timers, false⟩
        else
          let p2 := { p with
            status := "CANCELLED"
            cancelledAt := some now
            assignedVendorRef := none
            assignmentExpiresAt := none }
          ⟨.ok, updatePickup store id p2, timers.filter (fun t => t ≠ id), false⟩

/-! ## JSON values for the loosely-typed body fields -/

/-- A JSON object element of an `items` array:
`{ scrapTypeId, estimatedQuantity }`.  The routes never read these fields --
`validatePickupBody` checks only that `items` is a non-empty array. -/
structure JsObj where
  scrapTypeId : Option String := none
  estimatedQuantity : Option Int := none
deriving DecidableEq, Repr

/-- A JSON/JavaScript value as a request-body field can hold it.  Numbers are
modelled as integers: none of the embedded logic inspects more of a number
than `typeof x === 'number'` and the stored payload.  Arrays carry item
objects, the only array the embedded routes receive. -/
inductive JsVal where
  | vNull
  | vUndef
  | vNum (x : Int)
  | vStr (s : String)
  | vBool (b : Bool)
  | vArr (elems : List JsObj)
deriving DecidableEq, Repr

def isArray : JsVal → Bool
  | .vArr _ => true
  | _ => false

def arrLen : JsVal → Nat
  | .vArr l => l.length
  | _ => 0

/-- `typeof x === 'number'`. -/
def typeofNumber : JsVal → Bool
  | .vNum _ => true
  | _ => false

/-- The numeric payload of a number value. -/
def jsNumVal : JsVal → Int
  | .vNum x => x
  | _ => 0

/-- `x != null` (loose inequality: false for both null and undefined). -/
def jsNotNull : JsVal → Bool
  | .vNull => false
  | .vUndef => false
  | _ => true

/-- JavaScript truthiness of a value. -/
def jsTruthyVal : JsVal → Bool
  | .vNull => false
  | .vUndef => false
  | .vNum x => decide (x ≠ 0)
  | .vStr s => !s.isEmpty
  | .vBool b => b
  | .vArr _ => true

/-- `String(x)`: an array of objects stringifies to comma-joined
`[object Object]` markers. -/
def jsToString : JsVal → String
  | .vNull => "null"
  | .vUndef => "undefined"
  | .vNum x => toString x
  | .vStr s => s
  | .vBool b => if b then "true" else "false"
  | .vArr l => String.intercalate "," (l.map (fun _ => "[object Object]"))

/-! ## POST /api/pickups (src/unnamed/part_002 lines 28-119) -/

/-- The JSON body of a pickup-creation request. -/
structure PickupBody where
  items : JsVal := .vUndef
  address : JsVal := .vUndef
  timeSlot : JsVal := .vUndef
  latitude : JsVal := .vUndef
  longitude : JsVal := .vUndef
deriving DecidableEq, Repr

/-- `validatePickupBody` (lines 28-49): the error message, or `none` when the
body is valid. -/
def validatePickupBody : Option PickupBody → Option String
  | none => some "Request body is missing."
  | some b =>
    if !isArray b.items || arrLen b.items = 0 then
      some "items is required (array of { scrapTypeId, estimatedQuantity })."
    else if !jsTruthyVal b.address || jsTrim (jsToString b.address) = "" then
      some "address is required."
    else if !jsTruthyVal b.timeSlot || jsTrim (jsToString b.timeSlot) = "" then
      some "timeSlot is required."
    else if jsNotNull b.latitude && !typeofNumber b.latitude then
      some "latitude must be a number."
    else if jsNotNull b.longitude && !typeofNumber b.longitude then
      some "longitude must be a number."
    else none

inductive CreateResp where
  | badRequest (msg : String)
  | unauthorized
  | created (pid : String)
deriving DecidableEq, Repr

structure CreateOutcome where
  resp : CreateResp
  store : PickupStore
  dispatched : Bool
deriving DecidableEq, Repr

/-- POST /api/pickups (lines 55-119).  Validation runs before anything else;
on a validation error the handler returns 400 without touching any state and
without scheduling dispatch.  The `create_pickup` RPC (a SQL migration, not
under src/) durably inserts a REQUESTED pickup and returns its id, after
which dispatch is kicked off in the background. -/
def createPickupRoute (body : Option PickupBody) (auth : Bool) (newId : String)
    (store : PickupStore) : CreateOutcome :=
  match validatePickupBody body with
  | some msg => ⟨.badRequest msg, store, false⟩
  | none =>
    if !auth then ⟨.unauthorized, store, false⟩
    else
      let fresh : Pickup :=
        { status := "REQUESTED", assignedVendorRef := none, assignmentExpiresAt := none,
          cancelledAt := none, completedAt := none }
      ⟨.created newId, store ++ [(newId, fresh)], true⟩

/-! ## POST /api/admin/scrap-rates (src/routes/orders.js lines 244-288) -/

/-- The result of JavaScript `Number(...)` applied to the `ratePerKg` field:
a finite rational, or one of the non-finite values. -/
inductive JsNumber where
  | fin (x : Rat)
  | nan
  | posInf
  | negInf
deriving DecidableEq, Repr

/-- A row of the `scrap_rates` table. -/
structure RateRow where
  scrap_type_id : String
  rate_per_kg : Rat
  is_active : Bool
  effective_from : Nat
deriving DecidableEq, Repr

/-- `!Number.isFinite(ratePerKg) || ratePerKg <= 0` (line 251). NaN and the
infinities fail `Number.isFinite`, so only a finite positive value passes. -/
def rateInvalid : JsNumber → Bool
  | .fin x => decide (x ≤ 0)
  | _ => true

/-- The `.update({is_active:false}).eq('scrap_type_id', sid).eq('is_active', true)`
step (lines 259-263). -/
def deactivateRatesFor (table : List RateRow) (sid : String) : List RateRow :=
  table.map (fun r => if r.scrap_type_id = sid ∧ r.is_active then { r with is_active := false } else r)

/-- The active rate rows of one scrap type. -/
def activeRatesFor (table : List RateRow) (sid : String) : List RateRow :=
  table.filter (fun r => decide (r.scrap_type_id = sid) && r.is_active)

inductive RateResp where
  | forbidden
  | badRequest (msg : String)
  | created (r : RateRow)
deriving DecidableEq, Repr

/-- POST /api/admin/scrap-rates: validates the input, deactivates the
previously active rates of the scrap type, then inserts exactly one new
active row. -/
def setScrapRateRoute (adminOk : Bool) (scrapTypeIdField : Option String)
    (ratePerKg : JsNumber) (now : Nat) (table : List RateRow) :
    RateResp × List RateRow :=
  if !adminOk then (.forbidden, table)
  else
    let sid := jsTrim (scrapTypeIdField.getD "")
    if sid.isEmpty then (.badRequest "scrapTypeId is required", table)
    else if rateInvalid ratePerKg then
      (.badRequest "ratePerKg must be a positive number", table)
    else
      match ratePerKg with
      | .fin x =>
        let row : RateRow := ⟨sid, x, true, now⟩
        (.created row, deactivateRatesFor table sid ++ [row])
      | _ => (.badRequest "ratePerKg must be a positive number", table)

/-! ## POST /api/vendor/location (src/routes/vendor.js lines 46-111) -/

/-- The JSON body of a vendor presence update. -/
structure LocationBody where
  vendor_id : Option String := none
  vendorId : Option String := none
  vendorRef : Option String := none
  latitude : JsVal := .vUndef
  longitude : JsVal := .vUndef
  offer_url : Option String := none
  offerUrl : Option String := none
deriving DecidableEq, Repr

/-- A row of `vendor_backends` in the preferred schema
(`vendor_id, latitude, longitude, offer_url, is_available, updated_at`). -/
structure PreferredRow where
  vendor_id : String
  latitude : Int
  longitude : Int
  offer_url : Option String
  is_available : Bool
  updated_at : Nat
deriving DecidableEq, Repr

/-- A row of `vendor_backends` in the legacy schema
(`vendor_ref, last_latitude, last_longitude, offer_url, active, updated_at`). -/
structure LegacyRow where
  vendor_ref : String
  last_latitude : Int
  last_longitude : Int
  offer_url : Option String
  active : Bool
  updated_at : Nat
deriving DecidableEq, Repr

/-- The `vendor_backends` table: either the preferred schema is live
(`preferredOk`) or only the legacy one is, in which case an upsert keyed on
`vendor_id` fails with the column-missing error the route's regex matches. -/
structure VendorDB where
  preferredOk : Bool
  preferred : List PreferredRow
  legacy : List LegacyRow
deriving DecidableEq, Repr

/-- Upsert with `onConflict: 'vendor_id'` against the unique key column:
any existing row with the key is replaced by the new one. -/
def upsertPreferred (rows : List PreferredRow) (row : PreferredRow) : List PreferredRow :=
  rows.filter (fun r => decide (r.vendor_id ≠ row.vendor_id)) ++ [row]

/-- Upsert with `onConflict: 'vendor_ref'` against the unique key column. -/
def upsertLegacy (rows : List LegacyRow) (row : LegacyRow) : List LegacyRow :=
  rows.filter (fun r => decide (r.vendor_ref ≠ row.vendor_ref)) ++ [row]

inductive LocResp where
  | badRequest (msg : String)
  | okLoc (vendor_id : String)
deriving DecidableEq, Repr

/-- POST /api/vendor/location.  Requires a vendor identifier under one of
`vendor_id`, `vendorId`, `vendorRef` and numeric coordinates; then upserts
one row, into the preferred schema when it exists and otherwise (after the
column-missing error) into the legacy schema. -/
def vendorLocationRoute (b : LocationBody) (db : VendorDB) (now : Nat) :
    LocResp × VendorDB :=
  let incomingVendorId := jsOr b.vendor_id (jsOr b.vendorId b.vendorRef)
  if !strTruthy incomingVendorId then (.badRequest "vendor_id is required", db)
  else if !typeofNumber b.latitude || !typeofNumber b.longitude then
    (.badRequest "latitude and longitude must be numbers", db)
  else
    let key := incomingVendorId.getD ""
    let offerUrlFinal := jsOr b.offer_url b.offerUrl
    if db.preferredOk then
      let row : PreferredRow :=
        ⟨key, jsNumVal b.latitude, jsNumVal b.longitude, offerUrlFinal, true, now⟩
      (.okLoc key, { db with preferred := upsertPreferred db.preferred row })
    else
      let row : LegacyRow :=
        ⟨key, jsNumVal b.latitude, jsNumVal b.longitude, offerUrlFinal, true, now⟩
      (.okLoc key, { db with legacy := upsertLegacy db.legacy row })

/-! ## Helper lemmas -/

theorem isEmpty_false_of_ne {s : String} (h : s ≠ "") : s.isEmpty = false := by
  cases hs : s.isEmpty
  · rfl
  · exact absurd (by simpa [String.isEmpty, String.endPos_eq_zero] using hs) h

theorem strTruthy_some (s : String) : strTruthy (some s) = !s.isEmpty := rfl

theorem lookupPickup_update_isSome {store : PickupStore} {pid : String} (p2 : Pickup)
    (h : (lookupPickup store pid).isSome) :
    lookupPickup (updatePickup store pid p2) pid = some p2 := by
  induction store with
  | nil => simp [lookupPickup] at h
  | cons hd tl ih =>
    by_cases hk : hd.1 = pid
    · simp [lookupPickup, updatePickup, List.find?, hk]
    · have h2 : (lookupPickup tl pid).isSome := by
        simpa [lookupPickup, List.find?, hk] using h
      simpa [lookupPickup, updatePickup, List.find?, hk] using ih h2

theorem acceptCond_iff {p : Pickup} {vref : Option String} {now : Nat} :
    acceptCond p vref now = true ↔
      (p.status = "FINDING_VENDOR" ∧ p.assignedVendorRef = vref ∧
        ∃ t, p.assignmentExpiresAt = some t ∧ now < t) := by
  unfold acceptCond
  cases hE : p.assignmentExpiresAt <;> simp [hE, and_assoc]

theorem confirm_isSome_iff (store : PickupStore) (pid : String)
    (vref : Option String) (now : Nat) :
    (confirmVendorAcceptance store pid vref now).isSome = true ↔
      ∃ p, lookupPickup store pid = some p ∧ acceptCond p vref now = true := by
  unfold confirmVendorAcceptance
  cases hlk : lookupPickup store pid with
  | none => simp
  | some p => cases hc : acceptCond p vref now <;> simp [hc]

/-! ## Claims -/

/-- C1: an acceptance succeeds exactly when the pickup exists with status
FINDING_VENDOR, its `assignedVendorRef` equals the calling vendor and the
current time is strictly before `assignmentExpiresAt` — so a call arriving at
or after the expiry instant fails the `now < t` conjunct; and whenever the
condition fails the POST /api/vendor/accept route answers 409 with the store
unmutated, while on success it returns the updated projection and store. -/
theorem c1_confirm_acceptance_conditional (store : PickupStore) (pid v : String)
    (now : Nat) (hp : pid ≠ "") (hv : v ≠ "") :
    ((confirmVendorAcceptance store pid (some v) now).isSome = true ↔
      (∃ p, lookupPickup store pid = some p ∧ p.status = "FINDING_VENDOR" ∧
        p.assignedVendorRef = some v ∧ ∃ t, p.assignmentExpiresAt = some t ∧ now < t))
    ∧ (match confirmVendorAcceptance store pid (some v) now with
       | none => acceptRoute true (mkCallbackBody pid v) store now =
           ⟨.conflict, store, true⟩
       | some (p2, store2) => acceptRoute true (mkCallbackBody pid v) store now =
           ⟨.okPickup p2, store2, true⟩) := by
  constructor
  · rw [confirm_isSome_iff]
    constructor
    · rintro ⟨p, hlk, hc⟩
      exact ⟨p, hlk, acceptCond_iff.mp hc⟩
    · rintro ⟨p, hlk, hc⟩
      exact ⟨p, hlk, acceptCond_iff.mpr hc⟩
  · cases hres : confirmVendorAcceptance store pid (some v) now with
    | none =>
      simp [acceptRoute, mkCallbackBody, extractPickupId, extractVendorRef, jsOr,
        strTruthy, isEmpty_false_of_ne hp, isEmpty_false_of_ne hv, hres]
    | some pr =>
      obtain ⟨p2, store2⟩ := pr
      simp [acceptRoute, mkCallbackBody, extractPickupId, extractVendorRef, jsOr,
        strTruthy, isEmpty_false_of_ne hp, isEmpty_false_of_ne hv, hres]

/-- A pickup mid-offer: FINDING_VENDOR, assigned to V1, expiring at t=10. -/
def samplePickup : Pickup :=
  { status := "FINDING_VENDOR", assignedVendorRef := some "V1",
    assignmentExpiresAt := some 10, cancelledAt := none, completedAt := none }

def sampleStore : PickupStore := [("p1", samplePickup)]

/-- Witness for C1 at the concrete store `sampleStore`, vendor V1, time 5. -/
theorem c1_confirm_acceptance_conditional_witness :
    ((confirmVendorAcceptance sampleStore "p1" (some "V1") 5).isSome = true ↔
      (∃ p, lookupPickup sampleStore "p1" = some p ∧ p.status = "FINDING_VENDOR" ∧
        p.assignedVendorRef = some "V1" ∧ ∃ t, p.assignmentExpiresAt = some t ∧ 5 < t))
    ∧ (match confirmVendorAcceptance sampleStore "p1" (some "V1") 5 with
       | none => acceptRoute true (mkCallbackBody "p1" "V1") sampleStore 5 =
           ⟨.conflict, sampleStore, true⟩
       | some (p2, store2) => acceptRoute true (mkCallbackBody "p1" "V1") sampleStore 5 =
           ⟨.okPickup p2, store2, true⟩) :=
  c1_confirm_acceptance_conditional sampleStore "p1" "V1" 5 (by decide) (by decide)

/-! ## C2: racing acceptances

The spec makes the condition check and the write one atomic step against the
persisted record, so any concurrent execution of N acceptance calls is
equivalent to running them one after another in the order the store
serialised them.  `runAccepts` runs such a serialisation and counts the calls
that succeeded. -/

def runAccepts (pid : String) : PickupStore → List (String × Nat) → Nat × PickupStore
  | store, [] => (0, store)
  | store, (v, t) :: rest =>
    match confirmVendorAcceptance store pid (some v) t with
    | some (_, store2) =>
      let r := runAccepts pid store2 rest
      (r.1 + 1, r.2)
    | none => runAccepts pid store rest

theorem runAccepts_no_success {pid : String} {store : PickupStore} {p : Pickup}
    (hlk : lookupPickup store pid = some p) (hs : p.status ≠ "FINDING_VENDOR")
    (calls : List (String × Nat)) : runAccepts pid store calls = (0, store) := by
  induction calls with
  | nil => rfl
  | cons hd tl ih =>
    obtain ⟨v, t⟩ := hd
    have hc : confirmVendorAcceptance store pid (some v) t = none := by
      unfold confirmVendorAcceptance
      rw [hlk]
      have hcond : acceptCond p (some v) t = false := by
        cases h : acceptCond p (some v) t
        · rfl
        · exact absurd (acceptCond_iff.mp h).1 hs
      simp [hcond]
    simp [runAccepts, hc, ih]

/-- C2: with the offer live (status FINDING_VENDOR, assigned to `v`, expiry
`T`) and any serialisation of concurrent acceptance calls from distinct
vendors that includes `v`, all arriving before the expiry, exactly one call
succeeds and the store ends with the pickup ASSIGNED; every other call got
the falsy conflict result (the success count admits no second winner). -/
theorem c2_single_winner (store : PickupStore) (pid v : String) (T : Nat)
    (p : Pickup) (calls : List (String × Nat))
    (hlk : lookupPickup store pid = some p)
    (hstatus : p.status = "FINDING_VENDOR")
    (href : p.assignedVendorRef = some v)
    (hexp : p.assignmentExpiresAt = some T)
    (hnodup : (calls.map Prod.fst).Nodup)
    (hmem : v ∈ calls.map Prod.fst)
    (htimes : ∀ c ∈ calls, c.2 < T) :
    runAccepts pid store calls =
      (1, updatePickup store pid
        { p with status := "ASSIGNED", assignmentExpiresAt := none }) := by
  induction calls with
  | nil => simp at hmem
  | cons hd tl ih =>
    obtain ⟨w, t⟩ := hd
    by_cases hw : w = v
    · subst hw
      have hcond : acceptCond p (some w) t = true :=
        acceptCond_iff.mpr ⟨hstatus, href, T, hexp, htimes (w, t) (by simp)⟩
      have hc : confirmVendorAcceptance store pid (some w) t =
          some ({ p with status := "ASSIGNED", assignmentExpiresAt := none },
            updatePickup store pid
              { p with status := "ASSIGNED", assignmentExpiresAt := none }) := by
        unfold confirmVendorAcceptance
        rw [hlk]
        simp [hcond]
      have hlk2 : lookupPickup
          (updatePickup store pid
            { p with status := "ASSIGNED", assignmentExpiresAt := none }) pid =
          some { p with status := "ASSIGNED", assignmentExpiresAt := none } :=
        lookupPickup_update_isSome _ (by simp [hlk])
      have hrest := runAccepts_no_success hlk2 (by simp) tl
      simp [runAccepts, hc, hrest]
    · have hc : confirmVendorAcceptance store pid (some w) t = none := by
        unfold confirmVendorAcceptance
        rw [hlk]
        have hcond : acceptCond p (some w) t = false := by
          cases h : acceptCond p (some w) t
          · rfl
          · have hr := (acceptCond_iff.mp h).2.1
            rw [href] at hr
            exact absurd (Option.some.inj hr).symm hw
        simp [hcond]
      have hmem2 : v ∈ tl.map Prod.fst := by
        rw [List.map_cons] at hmem
        rcases List.mem_cons.mp hmem with h | h
        · exact absurd h.symm hw
        · exact h
      have htimes2 : ∀ c ∈ tl, c.2 < T := fun c hcm => htimes c (List.mem_cons_of_mem _ hcm)
      have hnodup2 : (tl.map Prod.fst).Nodup := by
        rw [List.map_cons] at hnodup
        exact (List.nodup_cons.mp hnodup).2
      simpa [runAccepts, hc] using ih hnodup2 hmem2 htimes2

/-- Witness for C2: vendors V2, V1, V3 race for the live offer held by V1;
the serialisation V2, V1, V3 yields exactly one success. -/
theorem c2_single_winner_witness :
    runAccepts "p1" sampleStore [("V2", 1), ("V1", 2), ("V3", 3)] =
      (1, updatePickup sampleStore "p1"
        { samplePickup with status := "ASSIGNED", assignmentExpiresAt := none }) :=
  c2_single_winner sampleStore "p1" "V1" 10 samplePickup
    [("V2", 1), ("V1", 2), ("V3", 3)] (by decide) (by decide) (by decide) (by decide)
    (by decide) (by decide) (by decide)

/-! ## C3 and C4: the customer retry and cancel routes -/

/-- A pickup that exhausted its candidates. -/
def nvaPickup : Pickup :=
  { status := "NO_VENDOR_AVAILABLE", assignedVendorRef := none,
    assignmentExpiresAt := none, cancelledAt := none, completedAt := none }

/-- C3 counterexample: `NO_VENDOR_AVAILABLE` is one of the claim's terminal
statuses, yet the find-vendor route proceeds on it — the record is rewritten
to FINDING_VENDOR and dispatch restarts, refuting "refuses ... leaving the
pickup record unchanged and issuing no new vendor offer". -/
theorem c3_counterexample :
    ¬ ((findVendorRoute true "p1" [("p1", nvaPickup)] []).store = [("p1", nvaPickup)] ∧
       (findVendorRoute true "p1" [("p1", nvaPickup)] []).dispatched = false) ∧
    nvaPickup.status = "NO_VENDOR_AVAILABLE" := by
  decide

/-- C3 amended: the retry route refuses (409, record unchanged, no dispatch)
exactly when the status is ASSIGNED, CANCELLED or COMPLETED; on every other
status — NO_VENDOR_AVAILABLE included — it resets the pickup to
FINDING_VENDOR with cleared offer fields, drops its in-memory timer state and
restarts dispatch. -/
theorem c3_find_vendor_amended (store : PickupStore) (timers : List String)
    (id : String) (p : Pickup)
    (hid : jsTrim id = id) (hne : id ≠ "")
    (hlk : lookupPickup store id = some p) :
    findVendorRoute true id store timers =
      (if jsToUpper p.status = "ASSIGNED" ∨ jsToUpper p.status = "CANCELLED" ∨
          jsToUpper p.status = "COMPLETED"
       then ⟨.conflict "Cannot retry vendor assignment", store, timers, false⟩
       else ⟨.ok, updatePickup store id
              { p with
                status := "FINDING_VENDOR"
                assignedVendorRef := none
                assignmentExpiresAt := none
                cancelledAt := none },
              timers.filter (fun t => t ≠ id), true⟩) := by
  by_cases h : jsToUpper p.status = "ASSIGNED" ∨ jsToUpper p.status = "CANCELLED" ∨
      jsToUpper p.status = "COMPLETED"
  · simp only [findVendorRoute, hid, isEmpty_false_of_ne hne, hlk, if_pos h]
    simp [hlk, h]
    tauto
  · simp [findVendorRoute, hid, isEmpty_false_of_ne hne, hlk, h,
      not_or.mp h |>.1, (not_or.mp (not_or.mp h).2).1, (not_or.mp (not_or.mp h).2).2]

/-- Witness for the amended C3 at a NO_VENDOR_AVAILABLE pickup. -/
theorem c3_find_vendor_amended_witness :
    findVendorRoute true "p1" [("p1", nvaPickup)] ["p1"] =
      (if jsToUpper nvaPickup.status = "ASSIGNED" ∨ jsToUpper nvaPickup.status = "CANCELLED" ∨
          jsToUpper nvaPickup.status = "COMPLETED"
       then ⟨.conflict "Cannot retry vendor assignment", [("p1", nvaPickup)], ["p1"], false⟩
       else ⟨.ok, updatePickup [("p1", nvaPickup)] "p1"
              { nvaPickup with
                status := "FINDING_VENDOR"
                assignedVendorRef := none
                assignmentExpiresAt := none
                cancelledAt := none },
              ["p1"].filter (fun t => t ≠ "p1"), true⟩) :=
  c3_find_vendor_amended [("p1", nvaPickup)] ["p1"] "p1" nvaPickup
    (by decide) (by decide) (by decide)

/-- A pickup already won by a vendor. -/
def assignedPickup : Pickup :=
  { status := "ASSIGNED", assignedVendorRef := some "V1",
    assignmentExpiresAt := none, cancelledAt := none, completedAt := none }

/-- C4 counterexample: a pickup whose status is ASSIGNED — neither REQUESTED
nor FINDING_VENDOR — is nonetheless cancelled successfully, refuting
"succeeds only for a pickup whose status is REQUESTED or FINDING_VENDOR". -/
theorem c4_counterexample :
    (cancelRoute true "p1" 7 [("p1", assignedPickup)] ["p1"]).resp = .ok ∧
    assignedPickup.status ≠ "REQUESTED" ∧ assignedPickup.status ≠ "FINDING_VENDOR" := by
  decide

/-- C4 amended: cancellation refuses (409, nothing changed) exactly when the
status is COMPLETED; for every other status — ASSIGNED, CANCELLED and
NO_VENDOR_AVAILABLE included — it succeeds, setting the terminal CANCELLED
status with `cancelled_at`, clearing `assignedVendorRef` and
`assignmentExpiresAt`, and dropping the pickup's in-memory timer state before
returning. -/
theorem c4_cancel_amended (store : PickupStore) (timers : List String)
    (id : String) (now : Nat) (p : Pickup)
    (hid : jsTrim id = id) (hne : id ≠ "")
    (hlk : lookupPickup store id = some p) :
    cancelRoute true id now store timers =
      (if jsToUpper p.status = "COMPLETED"
       then ⟨.conflict "Completed pickups cannot be cancelled", store, timers, false⟩
       else ⟨.ok, updatePickup store id
              { p with
                status := "CANCELLED"
                cancelledAt := some now
                assignedVendorRef := none
                assignmentExpiresAt := none },
              timers.filter (fun t => t ≠ id), false⟩) := by
  by_cases h : jsToUpper p.status = "COMPLETED"
  · simp [cancelRoute, hid, isEmpty_false_of_ne hne, hlk, h]
  · simp [cancelRoute, hid, isEmpty_false_of_ne hne, hlk, h]

/-- Witness for the amended C4 at an ASSIGNED pickup. -/
theorem c4_cancel_amended_witness :
    cancelRoute true "p1" 7 [("p1", assignedPickup)] ["p1"] =
      (if jsToUpper assignedPickup.status = "COMPLETED"
       then ⟨.conflict "Completed pickups cannot be cancelled", [("p1", assignedPickup)],
              ["p1"], false⟩
       else ⟨.ok, updatePickup [("p1", assignedPickup)] "p1"
              { assignedPickup with
                status := "CANCELLED"
                cancelledAt := some 7
                assignedVendorRef := none
                assignmentExpiresAt := none },
              ["p1"].filter (fun t => t ≠ "p1"), false⟩) :=
  c4_cancel_amended [("p1", assignedPickup)] ["p1"] "p1" 7 assignedPickup
    (by decide) (by decide) (by decide)

/-! ## C5: rejection from a non-current vendor -/

/-- C5: a rejection whose vendorRef differs from the pickup's current
`assignedVendorRef` is ignored: the dispatcher returns the "ignored" marker
with no state mutation and no redispatch (for an arbitrary `dispatchFn`, so
the dispatch function is never applied), and the route answers 200 carrying
the ignored marker. -/
theorem c5_stale_rejection_ignored (dispatchFn : PickupStore → String → PickupStore)
    (store : PickupStore) (rejections : List (String × String))
    (pid v : String) (p : Pickup)
    (hp : pid ≠ "") (hv : v ≠ "")
    (hlk : lookupPickup store pid = some p)
    (hne : p.assignedVendorRef ≠ some v) :
    handleVendorRejection dispatchFn store rejections pid (some v) =
      (.ignored, store, rejections)
    ∧ rejectRoute dispatchFn true (mkCallbackBody pid v) store rejections =
      ⟨.okResult .ignored, store, rejections⟩ := by
  have h1 : handleVendorRejection dispatchFn store rejections pid (some v) =
      ((.ignored : RejResult), store, rejections) := by
    unfold handleVendorRejection
    rw [hlk]
    simp [hne]
  refine ⟨h1, ?_⟩
  simp [rejectRoute, mkCallbackBody, extractPickupId, extractVendorRef, jsOr, strTruthy,
    isEmpty_false_of_ne hp, isEmpty_false_of_ne hv, h1]

/-- Witness for C5: V2 (which already lost) rejects a pickup held by V1. -/
theorem c5_stale_rejection_ignored_witness :
    handleVendorRejection (fun s _ => s) sampleStore [] "p1" (some "V2") =
      (.ignored, sampleStore, [])
    ∧ rejectRoute (fun s _ => s) true (mkCallbackBody "p1" "V2") sampleStore [] =
      ⟨.okResult .ignored, sampleStore, []⟩ :=
  c5_stale_rejection_ignored (fun s _ => s) sampleStore [] "p1" "V2" samplePickup
    (by decide) (by decide) (by decide) (by decide)

/-! ## C6: vendor identifier required on acceptance routes -/

/-- A signed body carrying a pickup id and no vendor identifier at all. -/
def noVendorBody : CallbackBody := { pickupId := some "p1" }

/-- C6 counterexample: on POST /api/pickups/accepted a signed request with a
pickupId and no vendor identifier is NOT rejected with 400 — the dispatcher
is invoked (with the absent `assignedVendorRef`) and the route answers 409,
refuting "on every acceptance-confirming route, including POST
/api/pickups/accepted". -/
theorem c6_counterexample :
    (acceptedRoute true noVendorBody sampleStore 5).dispatcherInvoked = true ∧
    (acceptedRoute true noVendorBody sampleStore 5).resp = .conflict ∧
    extractVendorRef noVendorBody = none := by
  decide

/-- C6 amended: POST /api/vendor/accept and POST /api/vendor/reject reject a
request that carries a pickupId but no vendor identifier with a 400
validation error before the dispatcher is ever invoked; POST
/api/pickups/accepted performs no such check and invokes the dispatcher
anyway, passing it the absent `assignedVendorRef` field. -/
theorem c6_vendor_key_amended (b : CallbackBody) (store : PickupStore)
    (rejections : List (String × String))
    (dispatchFn : PickupStore → String → PickupStore) (now : Nat)
    (hpid : strTruthy (extractPickupId b) = true)
    (hv : strTruthy (extractVendorRef b) = false) :
    acceptRoute true b store now =
      ⟨.badRequest "vendor_id (or assignedVendorRef) is required", store, false⟩
    ∧ rejectRoute dispatchFn true b store rejections =
      ⟨.badRequest "vendor_id (or assignedVendorRef) is required", store, rejections⟩
    ∧ (acceptedRoute true b store now).dispatcherInvoked = true := by
  refine ⟨?_, ?_, ?_⟩
  · simp [acceptRoute, hpid, hv]
  · simp [rejectRoute, hpid, hv]
  · cases hres : confirmVendorAcceptance store ((extractPickupId b).getD "") b.assignedVendorRef now with
    | none => simp [acceptedRoute, hpid, hres]
    | some pr =>
      obtain ⟨p2, s2⟩ := pr
      simp [acceptedRoute, hpid, hres]

/-- Witness for the amended C6 at the vendor-less body. -/
theorem c6_vendor_key_amended_witness :
    acceptRoute true noVendorBody sampleStore 5 =
      ⟨.badRequest "vendor_id (or assignedVendorRef) is required", sampleStore, false⟩
    ∧ rejectRoute (fun s _ => s) true noVendorBody sampleStore [] =
      ⟨.badRequest "vendor_id (or assignedVendorRef) is required", sampleStore, []⟩
    ∧ (acceptedRoute true noVendorBody sampleStore 5).dispatcherInvoked = true :=
  c6_vendor_key_amended noVendorBody sampleStore [] (fun s _ => s) 5
    (by decide) (by decide)

/-! ## C7: alias normalization at the parsing boundary -/

/-- C7: the accept and reject handlers factor through the canonical
`(pickupId, vendorRef)` extraction — two bodies whose extractions coincide
(in particular, bodies that differ only in which accepted spelling carries
each identifier) produce identical route outcomes, so the dispatcher is
called with the same canonical pair and never sees the aliases. -/
theorem c7_alias_normalization (b1 b2 : CallbackBody) (store : PickupStore)
    (rejections : List (String × String))
    (dispatchFn : PickupStore → String → PickupStore) (now : Nat)
    (hpid : extractPickupId b1 = extractPickupId b2)
    (hv : extractVendorRef b1 = extractVendorRef b2) :
    acceptRoute true b1 store now = acceptRoute true b2 store now
    ∧ rejectRoute dispatchFn true b1 store rejections =
      rejectRoute dispatchFn true b2 store rejections := by
  constructor
  · unfold acceptRoute
    rw [hpid, hv]
  · unfold rejectRoute
    rw [hpid, hv]

/-- Witness for C7: `pickupId`/`vendor_id` spellings against
`request_id`/`assignedVendorRef` spellings of the same identifiers. -/
theorem c7_alias_normalization_witness :
    acceptRoute true { pickupId := some "p1", vendor_id := some "V1" } sampleStore 5 =
      acceptRoute true { request_id := some "p1", assignedVendorRef := some "V1" } sampleStore 5
    ∧ rejectRoute (fun s _ => s) true { pickupId := some "p1", vendor_id := some "V1" }
        sampleStore [] =
      rejectRoute (fun s _ => s) true { request_id := some "p1", assignedVendorRef := some "V1" }
        sampleStore [] :=
  c7_alias_normalization { pickupId := some "p1", vendor_id := some "V1" }
    { request_id := some "p1", assignedVendorRef := some "V1" } sampleStore []
    (fun s _ => s) 5 (by decide) (by decide)

/-! ## C8: pickup creation validates before touching state -/

/-- The claim's malformed-body condition: items missing or not a non-empty
array, address or timeSlot missing/blank, or a supplied latitude/longitude
that is not a number. -/
def malformedPickupBody : Option PickupBody → Bool
  | none => true
  | some b =>
    (!isArray b.items || arrLen b.items = 0) ||
    (!jsTruthyVal b.address || jsTrim (jsToString b.address) = "") ||
    (!jsTruthyVal b.timeSlot || jsTrim (jsToString b.timeSlot) = "") ||
    (jsNotNull b.latitude && !typeofNumber b.latitude) ||
    (jsNotNull b.longitude && !typeofNumber b.longitude)

/-- C8: every malformed creation request is answered 400 by the validator
that runs first — whatever the auth state — with the store untouched and no
dispatch started. -/
theorem c8_create_validation_first (body : Option PickupBody) (auth : Bool)
    (newId : String) (store : PickupStore)
    (hbad : malformedPickupBody body = true) :
    ∃ msg, createPickupRoute body auth newId store = ⟨.badRequest msg, store, false⟩ := by
  have hv : ∃ msg, validatePickupBody body = some msg := by
    cases body with
    | none => exact ⟨_, rfl⟩
    | some b =>
      simp only [malformedPickupBody] at hbad
      simp only [validatePickupBody]
      split_ifs with h1 h2 h3 h4 h5
      · exact ⟨_, rfl⟩
      · exact ⟨_, rfl⟩
      · exact ⟨_, rfl⟩
      · exact ⟨_, rfl⟩
      · exact ⟨_, rfl⟩
      · exfalso
        simp only [Bool.or_eq_true] at hbad
        rcases hbad with ((((hc | hc) | hc) | hc) | hc) <;> simp_all
  obtain ⟨msg, hm⟩ := hv
  exact ⟨msg, by simp [createPickupRoute, hm]⟩

/-- A creation body with address and slot but no items array. -/
def noItemsBody : PickupBody :=
  { address := .vStr "12 High St", timeSlot := .vStr "9-11" }

/-- Witness for C8 at a body missing its items array. -/
theorem c8_create_validation_first_witness :
    ∃ msg, createPickupRoute (some noItemsBody) true "p9" [] =
      ⟨.badRequest msg, [], false⟩ :=
  c8_create_validation_first (some noItemsBody) true "p9" [] (by decide)

/-! ## C9: single active rate per scrap type -/

theorem activeRatesFor_deactivate (table : List RateRow) (sid : String) :
    activeRatesFor (deactivateRatesFor table sid) sid = [] := by
  induction table with
  | nil => rfl
  | cons r tl ih =>
    by_cases hA : r.scrap_type_id = sid
    · by_cases hB : r.is_active
      · simpa [deactivateRatesFor, activeRatesFor, hA, hB] using ih
      · simpa [deactivateRatesFor, activeRatesFor, hA, hB] using ih
    · simpa [deactivateRatesFor, activeRatesFor, hA] using ih

/-- C9: an invalid `ratePerKg` (NaN, infinite or nonpositive) is rejected
with 400 before any rate row is modified; a finite positive rate first
deactivates every previously active row for the scrap type, then inserts
exactly one new active row, so the table ends with exactly that row active
for the type. -/
theorem c9_scrap_rate_single_active (sidField : Option String) (rate : JsNumber)
    (now : Nat) (table : List RateRow)
    (hsid : jsTrim (sidField.getD "") ≠ "") :
    (match rate with
     | .fin x =>
       if x ≤ 0 then
         setScrapRateRoute true sidField rate now table =
           (.badRequest "ratePerKg must be a positive number", table)
       else
         setScrapRateRoute true sidField rate now table =
           (.created ⟨jsTrim (sidField.getD ""), x, true, now⟩,
            deactivateRatesFor table (jsTrim (sidField.getD "")) ++
              [⟨jsTrim (sidField.getD ""), x, true, now⟩])
         ∧ activeRatesFor (setScrapRateRoute true sidField rate now table).2
             (jsTrim (sidField.getD "")) =
           [⟨jsTrim (sidField.getD ""), x, true, now⟩]
     | _ => setScrapRateRoute true sidField rate now table =
         (.badRequest "ratePerKg must be a positive number", table)) := by
  cases rate with
  | fin x =>
    by_cases hx : x ≤ 0
    · simp only [hx, if_true]
      simp [setScrapRateRoute, isEmpty_false_of_ne hsid, rateInvalid, hx]
    · simp only [hx, if_false]
      have hroute : setScrapRateRoute true sidField (.fin x) now table =
          (.created ⟨jsTrim (sidField.getD ""), x, true, now⟩,
           deactivateRatesFor table (jsTrim (sidField.getD "")) ++
             [⟨jsTrim (sidField.getD ""), x, true, now⟩]) := by
        simp [setScrapRateRoute, isEmpty_false_of_ne hsid, rateInvalid, hx]
      refine ⟨hroute, ?_⟩
      rw [hroute]
      unfold activeRatesFor
      rw [List.filter_append]
      have h1 := activeRatesFor_deactivate table (jsTrim (sidField.getD ""))
      unfold activeRatesFor at h1
      rw [h1]
      simp
  | nan => simp [setScrapRateRoute, isEmpty_false_of_ne hsid, rateInvalid]
  | posInf => simp [setScrapRateRoute, isEmpty_false_of_ne hsid, rateInvalid]
  | negInf => simp [setScrapRateRoute, isEmpty_false_of_ne hsid, rateInvalid]

/-- A rates table holding an active row for the type being updated and one
for another type. -/
def sampleRates : List RateRow := [⟨"t1", 2, true, 1⟩, ⟨"t2", 7, true, 1⟩]

/-- Witness for C9: setting a rate of 5 on type t1 over `sampleRates`. -/
theorem c9_scrap_rate_single_active_witness :
    (match (JsNumber.fin 5) with
     | .fin x =>
       if x ≤ 0 then
         setScrapRateRoute true (some "t1") (.fin 5) 3 sampleRates =
           (.badRequest "ratePerKg must be a positive number", sampleRates)
       else
         setScrapRateRoute true (some "t1") (.fin 5) 3 sampleRates =
           (.created ⟨jsTrim ((some "t1").getD ""), x, true, 3⟩,
            deactivateRatesFor sampleRates (jsTrim ((some "t1").getD "")) ++
              [⟨jsTrim ((some "t1").getD ""), x, true, 3⟩])
         ∧ activeRatesFor (setScrapRateRoute true (some "t1") (.fin 5) 3 sampleRates).2
             (jsTrim ((some "t1").getD "")) =
           [⟨jsTrim ((some "t1").getD ""), x, true, 3⟩]
     | _ => setScrapRateRoute true (some "t1") (.fin 5) 3 sampleRates =
         (.badRequest "ratePerKg must be a positive number", sampleRates)) :=
  c9_scrap_rate_single_active (some "t1") (.fin 5) 3 sampleRates (by decide)

/-! ## C10: vendor location upsert -/

theorem filter_upsertPreferred (rows : List PreferredRow) (row : PreferredRow) :
    (upsertPreferred rows row).filter (fun r => decide (r.vendor_id = row.vendor_id)) = [row] := by
  unfold upsertPreferred
  rw [List.filter_append]
  have h1 : (rows.filter (fun r => decide (r.vendor_id ≠ row.vendor_id))).filter
      (fun r => decide (r.vendor_id = row.vendor_id)) = [] := by
    induction rows with
    | nil => rfl
    | cons r tl ih =>
      by_cases h : r.vendor_id = row.vendor_id
      · simp [h, ih]
      · simp [h, ih]
  rw [h1]
  simp

theorem filter_upsertLegacy (rows : List LegacyRow) (row : LegacyRow) :
    (upsertLegacy rows row).filter (fun r => decide (r.vendor_ref = row.vendor_ref)) = [row] := by
  unfold upsertLegacy
  rw [List.filter_append]
  have h1 : (rows.filter (fun r => decide (r.vendor_ref ≠ row.vendor_ref))).filter
      (fun r => decide (r.vendor_ref = row.vendor_ref)) = [] := by
    induction rows with
    | nil => rfl
    | cons r tl ih =>
      by_cases h : r.vendor_ref = row.vendor_ref
      · simp [h, ih]
      · simp [h, ih]
  rw [h1]
  simp

/-- C10: a location update without a vendor identifier, or with non-numeric
coordinates, is rejected 400 with the table untouched; a valid one leaves
exactly one row for that identifier — in the preferred schema when it is
live, otherwise in the legacy schema after the column-missing fallback —
marked available with the given coordinates, the other schema untouched. -/
theorem c10_vendor_location_upsert (b : LocationBody) (db : VendorDB) (now : Nat) :
    (if !strTruthy (jsOr b.vendor_id (jsOr b.vendorId b.vendorRef)) then
       vendorLocationRoute b db now = (.badRequest "vendor_id is required", db)
     else if !typeofNumber b.latitude || !typeofNumber b.longitude then
       vendorLocationRoute b db now =
         (.badRequest "latitude and longitude must be numbers", db)
     else
       (vendorLocationRoute b db now).1 =
         .okLoc ((jsOr b.vendor_id (jsOr b.vendorId b.vendorRef)).getD "")
       ∧ (if db.preferredOk then
            (vendorLocationRoute b db now).2.preferred.filter
              (fun r => decide (r.vendor_id =
                (jsOr b.vendor_id (jsOr b.vendorId b.vendorRef)).getD "")) =
              [⟨(jsOr b.vendor_id (jsOr b.vendorId b.vendorRef)).getD "",
                jsNumVal b.latitude, jsNumVal b.longitude,
                jsOr b.offer_url b.offerUrl, true, now⟩]
            ∧ (vendorLocationRoute b db now).2.legacy = db.legacy
          else
            (vendorLocationRoute b db now).2.legacy.filter
              (fun r => decide (r.vendor_ref =
                (jsOr b.vendor_id (jsOr b.vendorId b.vendorRef)).getD "")) =
              [⟨(jsOr b.vendor_id (jsOr b.vendorId b.vendorRef)).getD "",
                jsNumVal b.latitude, jsNumVal b.longitude,
                jsOr b.offer_url b.offerUrl, true, now⟩]
            ∧ (vendorLocationRoute b db now).2.preferred = db.preferred)) := by
  by_cases h1 : strTruthy (jsOr b.vendor_id (jsOr b.vendorId b.vendorRef)) = true
  · by_cases h2 : (!typeofNumber b.latitude || !typeofNumber b.longitude) = true
    · simp [vendorLocationRoute, h1, h2]
    · by_cases hp : db.preferredOk
      · simp [vendorLocationRoute, h1, h2, hp]
        exact filter_upsertPreferred db.preferred
          ⟨(jsOr b.vendor_id (jsOr b.vendorId b.vendorRef)).getD "", jsNumVal b.latitude,
            jsNumVal b.longitude, jsOr b.offer_url b.offerUrl, true, now⟩
      · simp [vendorLocationRoute, h1, h2, hp]
        exact filter_upsertLegacy db.legacy
          ⟨(jsOr b.vendor_id (jsOr b.vendorId b.vendorRef)).getD "", jsNumVal b.latitude,
            jsNumVal b.longitude, jsOr b.offer_url b.offerUrl, true, now⟩
  · simp [vendorLocationRoute, h1]

end ScrapCo
